import Mathlib

/-!
Verification of the Plane→Discord webhook middleware (src/main.py) against its
natural-language specification. The Python source is shallowly embedded:
JSON values become the inductive type JVal, the pydantic models become
structures, the pure helpers become Lean functions, and the two networked
operations (avatar download, webhook relay) are modelled by passing the
network as an explicit function from requests to optional responses (a none
response models a transport failure, i.e. an httpx exception). Python code
that can raise (attribute access such as .get on a non-dict) is embedded in
the Except monad.
-/

set_option autoImplicit false

namespace Plane

/-- A Python/JSON value, as carried by the open `data` mapping and the
activity old/new values (`Any` in the source). Mappings are association
lists with distinct keys (Python dict); numbers are restricted to integers,
which is all the theorems below exercise. -/
inductive JVal where
  | null
  | bool (b : Bool)
  | num (n : Int)
  | str (s : String)
  | list (xs : List JVal)
  | dict (kvs : List (String × JVal))

/-- Python truthiness for the embedded values (bool(v)). -/
def truthy : JVal → Bool
  | .null => false
  | .bool b => b
  | .num n => n != 0
  | .str s => s ≠ ""
  | .list xs => !xs.isEmpty
  | .dict kvs => !kvs.isEmpty

/-- Python `a or b` on values: the first operand when truthy, else the second. -/
def pyOr (a b : JVal) : JVal := if truthy a then a else b

mutual

/-- Python repr() of an embedded value, used by str() on lists and dicts.
Escaping of quotes and control characters inside string reprs is not
modelled; no value exercised below contains them. -/
def pyRepr : JVal → String
  | .null => "None"
  | .bool b => if b then "True" else "False"
  | .num n => toString n
  | .str s => "'" ++ s ++ "'"
  | .list xs => "[" ++ String.intercalate ", " (pyReprList xs) ++ "]"
  | .dict kvs => "\x7b" ++ String.intercalate ", " (pyReprPairs kvs) ++ "\x7d"

def pyReprList : List JVal → List String
  | [] => []
  | v :: vs => pyRepr v :: pyReprList vs

def pyReprPairs : List (String × JVal) → List String
  | [] => []
  | kv :: kvs => ("'" ++ kv.1 ++ "': " ++ pyRepr kv.2) :: pyReprPairs kvs

end

/-- Python str() of an embedded value. -/
def pyStr : JVal → String
  | .str s => s
  | v => pyRepr v

/-- Python str.lower(), restricted to ASCII case mapping (the only strings
exercised are ASCII). -/
def pyLower (s : String) : String := ⟨s.data.map Char.toLower⟩

/-- Python str.capitalize(): first character uppercased, the rest lowercased
(ASCII case mapping). -/
def pyCapitalize (s : String) : String :=
  match s.data with
  | [] => ""
  | c :: cs => ⟨c.toUpper :: cs.map Char.toLower⟩

/-- Python str.endswith. -/
def pyEndsWith (s suff : String) : Bool := suff.data.isSuffixOf s.data

/-- Python str.startswith. -/
def pyStartsWith (s pre : String) : Bool := pre.data.isPrefixOf s.data

/-- One pass of Python str.replace over a character list: leftmost,
non-overlapping occurrences of pat are replaced by rep. The fuel argument
(instantiated with the list length) only bounds the recursion; pat is
never empty at the call sites. -/
def pyReplaceAux (pat rep : List Char) : Nat → List Char → List Char
  | _, [] => []
  | 0, cs => cs
  | fuel + 1, c :: rest =>
    if pat.isPrefixOf (c :: rest) then
      rep ++ pyReplaceAux pat rep fuel (rest.drop (pat.length - 1))
    else c :: pyReplaceAux pat rep fuel rest

/-- Python s.replace(pat, rep) for non-empty pat. -/
def pyReplace (s pat rep : String) : String :=
  ⟨pyReplaceAux pat.data rep.data s.data.length s.data⟩

/-- Python str.split on a one-character separator, keeping empty groups. -/
def splitOnChar (sep : Char) : List Char → List (List Char)
  | [] => [[]]
  | c :: rest =>
    if c = sep then [] :: splitOnChar sep rest
    else
      match splitOnChar sep rest with
      | g :: gs => (c :: g) :: gs
      | [] => [[c]]

/-- The character class [0-9a-f] under re.IGNORECASE, i.e. a hexadecimal
digit in either case. -/
def isHexDigit (c : Char) : Bool :=
  (('0' ≤ c) && (c ≤ '9')) || (('a' ≤ c) && (c ≤ 'f')) || (('A' ≤ c) && (c ≤ 'F'))

/-- Split a character list on the separator '-', keeping empty groups:
the grouping a regex alternation over hyphen-separated hex runs induces. -/
def splitDash : List Char → List (List Char) := splitOnChar '-'

/-- The body of _UUID_RE: exactly five hyphen-separated groups of hexadecimal
digits with lengths 8, 4, 4, 4, 12. -/
def uuidBody (cs : List Char) : Bool :=
  match splitDash cs with
  | [a, b, c, d, e] =>
    (a.length == 8) && (b.length == 4) && (c.length == 4) && (d.length == 4) &&
    (e.length == 12) && a.all isHexDigit && b.all isHexDigit && c.all isHexDigit &&
    d.all isHexDigit && e.all isHexDigit
  | _ => false

/-- The test _UUID_RE.match(s): the anchored pattern with Python semantics for the
dollar anchor, which also matches just before a single trailing newline. -/
def uuidChars (cs : List Char) : Bool :=
  uuidBody cs || ((cs.getLast? == some '\n') && uuidBody cs.dropLast)

/-- Whether a string matches the canonical 8-4-4-4-12 UUID shape
(case-insensitive), as tested by _UUID_RE.match in _sanitize_value. -/
def uuidMatch (s : String) : Bool := uuidChars s.data

/-- The test _URL_RE.match(url): the string starts with http://, https:// or
attachment:// (case-insensitive). -/
def urlSchemeMatch (s : String) : Bool :=
  pyStartsWith (pyLower s) "http://" || pyStartsWith (pyLower s) "https://" ||
    pyStartsWith (pyLower s) "attachment://"

/-- The helper _is_valid_url from src/main.py: truthy, a string, and matching _URL_RE. -/
def _is_valid_url (v : JVal) : Bool :=
  match v with
  | .str s => (s ≠ "") && urlSchemeMatch s
  | _ => false

/-- The value looked up by the dict branch of _sanitize_value: the first of
the keys display_name, name, title that is present with a truthy value. -/
def dictNameKey (kvs : List (String × JVal)) : Option JVal :=
  (["display_name", "name", "title"].filterMap fun k =>
    match kvs.lookup k with
    | some v => if truthy v then some v else none
    | none => none).head?

mutual

/-- The sanitizer _sanitize_value from src/main.py: empty values and UUID-shaped strings
become the placeholder, lists are sanitized elementwise and joined, dicts
are replaced by their first human-meaning key when one is present. -/
def _sanitize_value : JVal → String
  | .null => "—"
  | .bool b => pyStr (.bool b)
  | .num n => pyStr (.num n)
  | .str s => if s = "" then "—" else if uuidMatch s then "—" else s
  | .list xs =>
    if xs.isEmpty then "—"
    else
      let pretty := sanitizeList xs
      let joined := String.intercalate ", " (pretty.filter (· ≠ "—"))
      if joined = "" then "—" else joined
  | .dict kvs =>
    if kvs.isEmpty then "—"
    else
      match dictNameKey kvs with
      | some v => pyStr v
      | none => pyStr (.dict kvs)

def sanitizeList : List JVal → List String
  | [] => []
  | v :: vs => _sanitize_value v :: sanitizeList vs

end

/-- A rendered Discord embed field, as built by _make_field. -/
structure EmbedField where
  name : String
  value : String
  inline : Bool
deriving DecidableEq, Repr

/-- The helper _make_field from src/main.py. -/
def _make_field (name : String) (value : JVal) (inl : Bool := true) : EmbedField :=
  { name := name, value := _sanitize_value value, inline := inl }

/-- The helper _arrow_change from src/main.py: sanitized old, arrow, sanitized new. -/
def _arrow_change (old new : JVal) : String :=
  _sanitize_value old ++ " ➜ " ++ _sanitize_value new

/-- The Actor pydantic model. -/
structure Actor where
  id : String
  display_name : Option String := none
  avatar_url : Option String := none
deriving DecidableEq, Repr

/-- The Activity pydantic model; new_value and old_value default to None. -/
structure Activity where
  field : Option String := none
  new_value : JVal := .null
  old_value : JVal := .null
  actor : Option Actor := none

/-- The PlaneWebhook pydantic model: the inbound event. -/
structure PlaneWebhook where
  event : String
  action : String := "unknown"
  data : List (String × JVal) := []
  activity : Option Activity := none

/-- Python exceptions reachable in the embedded code. -/
inductive PyErr where
  | attributeError
  | typeError
  | httpException (status : Nat) (detail : String)
deriving DecidableEq, Repr

/-- Python v.get(k) for a dict value: the entry when present, None when the
key is missing, AttributeError when the receiver is not a dict. -/
def pyGet (v : JVal) (k : String) : Except PyErr JVal :=
  match v with
  | .dict kvs => .ok ((kvs.lookup k).getD .null)
  | _ => .error .attributeError

/-- Python iteration over a value: lists yield their elements, dicts their
keys, strings their characters; other values raise TypeError. -/
def pyIter : JVal → Except PyErr (List JVal)
  | .list xs => .ok xs
  | .dict kvs => .ok (kvs.map (fun kv => JVal.str kv.1))
  | .str s => .ok (s.data.map (fun c => JVal.str ⟨[c]⟩))
  | _ => .error .typeError

/-- ACTION_COLOR from src/main.py. -/
def ACTION_COLOR : List (String × Nat) :=
  [("create", 0x2ECC71), ("created", 0x2ECC71),
   ("update", 0xF1C40F), ("updated", 0xF1C40F),
   ("delete", 0xE74C3C), ("deleted", 0xE74C3C)]

/-- EVENT_ICON from src/main.py. -/
def EVENT_ICON : List (String × String) :=
  [("issue", "🐛"), ("project", "📁"), ("cycle", "🗓️"), ("comment", "💬")]

/-- The author block of a Discord embed: the name may be Python None (an
actor without a display name), and the icon_url key may be absent. -/
structure EmbedAuthor where
  name : Option String
  icon_url : Option String
deriving DecidableEq, Repr

/-- A Discord embed as built by build_discord_embed. The timestamp is the
wall-clock time at composition, passed in as a parameter. -/
structure Embed where
  title : String
  color : Nat
  fields : List EmbedField
  timestamp : String
  thumbnail : Option String
  author : EmbedAuthor
deriving DecidableEq, Repr

/-- An embedded Option String as a value (None or the string). -/
def optStrJVal : Option String → JVal
  | some s => .str s
  | none => .null

/-- actor_name from build_discord_embed: the display name of the activity
actor when both are present, else the literal Unknown. -/
def actorNameOf (p : PlaneWebhook) : Option String :=
  match p.activity with
  | some act =>
    match act.actor with
    | some actor => actor.display_name
    | none => some "Unknown"
  | none => some "Unknown"

/-- The three common fields of build_discord_embed: Event, Action, By. -/
def baseFields (p : PlaneWebhook) : List EmbedField :=
  [_make_field "Event" (.str (pyCapitalize p.event)) true,
   _make_field "Action" (.str (pyCapitalize p.action)) true,
   _make_field "By" (optStrJVal (actorNameOf p)) true]

/-- The assignee comprehension of build_discord_embed:
a.get(display_name) or a.get(name) for each element, raising when an
element is not a dict. -/
def assigneeNames : List JVal → Except PyErr (List JVal)
  | [] => .ok []
  | a :: rest =>
    match pyGet a "display_name" with
    | .error e => .error e
    | .ok d =>
      match (if truthy d then .ok d else pyGet a "name" : Except PyErr JVal) with
      | .error e => .error e
      | .ok v =>
        match assigneeNames rest with
        | .error e => .error e
        | .ok vs => .ok (v :: vs)

/-- The event-specific section of build_discord_embed (lines 155-164):
extra fields and the title value, by event category. -/
def eventSpecific (p : PlaneWebhook) : Except PyErr (List EmbedField × JVal) :=
  if p.event = "issue" then
    match pyGet ((p.data.lookup "state").getD (.dict [])) "name" with
    | .error e => .error e
    | .ok stateName =>
      match pyIter ((p.data.lookup "assignees").getD (.list [])) with
      | .error e => .error e
      | .ok items =>
        match assigneeNames items with
        | .error e => .error e
        | .ok assignees =>
          .ok ([_make_field "State" stateName true,
                _make_field "Assignees" (.list assignees) true],
               pyOr ((p.data.lookup "name").getD .null) (.str "<untitled>"))
  else if p.event = "project" then
    .ok ([], pyOr ((p.data.lookup "name").getD .null) (.str "<untitled>"))
  else
    .ok ([], .str (pyCapitalize p.event))

/-- The change section of build_discord_embed (lines 167-184): none means
the whole notification is suppressed (the early return None on a field name
ending in _id); some gives the change fields to append. The state_id branch
of the source is kept although the early return makes it unreachable. -/
def changeSection (p : PlaneWebhook) : Except PyErr (Option (List EmbedField)) :=
  match p.activity with
  | none => .ok (some [])
  | some act =>
    match act.field with
    | none => .ok (some [])
    | some fn =>
      if fn = "" then .ok (some [])
      else if pyEndsWith fn "_id" then .ok none
      else
        let field_name := pyCapitalize (pyReplace (pyReplace fn "_id" "") "_" " ")
        match (if fn = "state_id" then
                 match pyGet ((p.data.lookup "state").getD (.dict [])) "name" with
                 | .error e => .error e
                 | .ok st => .ok (act.old_value, pyOr st act.new_value)
               else
                 .ok (act.old_value, act.new_value) : Except PyErr (JVal × JVal)) with
        | .error e => .error e
        | .ok vals =>
          .ok (some [_make_field field_name (.str (_arrow_change vals.1 vals.2)) false])

/-- The optional thumbnail of build_discord_embed: cover_image_url or
cover_image, attached only when it is a string matching _URL_RE. -/
def thumbnailOf (p : PlaneWebhook) : Option String :=
  match pyOr ((p.data.lookup "cover_image_url").getD .null)
             ((p.data.lookup "cover_image").getD .null) with
  | .str s => if _is_valid_url (.str s) then some s else none
  | _ => none

/-- The author block of build_discord_embed: the actor name, with the icon
reference attached when a truthy author_icon_url was passed. -/
def authorBlock (p : PlaneWebhook) (author_icon_url : Option String) : EmbedAuthor :=
  match author_icon_url with
  | some iconUrl =>
    if iconUrl ≠ "" then { name := actorNameOf p, icon_url := some iconUrl }
    else { name := actorNameOf p, icon_url := none }
  | none => { name := actorNameOf p, icon_url := none }

/-- build_discord_embed from src/main.py. The now argument is the UTC
timestamp taken at composition time. A .ok none result means the
notification is suppressed; .error models a raised Python exception. -/
def build_discord_embed (p : PlaneWebhook) (author_icon_url : Option String)
    (now : String) : Except PyErr (Option Embed) :=
  match eventSpecific p with
  | .error e => .error e
  | .ok (specificFields, title) =>
    match changeSection p with
    | .error e => .error e
    | .ok none => .ok none
    | .ok (some changeFields) =>
      .ok (some
        { title := (EVENT_ICON.lookup p.event).getD "ℹ️" ++ "  " ++ pyStr title
          color := (ACTION_COLOR.lookup (pyLower p.action)).getD 0x3498DB
          fields := baseFields p ++ specificFields ++ changeFields
          timestamp := now
          thumbnail := thumbnailOf p
          author := authorBlock p author_icon_url })

/-- Module-level configuration read from the environment: PLANE_BASE_URL
(already right-stripped of trailing slashes at load) and PLANE_API_TOKEN. -/
structure Config where
  planeBaseUrl : String
  planeApiToken : Option String
deriving DecidableEq, Repr

/-- An outbound HTTP GET request as issued by _download_avatar: the target
URL and the header dict. -/
structure HttpRequest where
  url : String
  headers : List (String × String)
deriving DecidableEq, Repr

/-- An HTTP response: status code, headers, body bytes. -/
structure HttpResponse where
  status : Nat
  headers : List (String × String)
  body : List Nat
deriving DecidableEq, Repr

/-- r.headers.get(k) on an httpx response: header lookup is
case-insensitive. -/
def headerGet (hs : List (String × String)) (k : String) : Option String :=
  ((hs.find? fun kv => pyLower kv.1 == pyLower k).map fun kv => kv.2)

/-- The network seen by _download_avatar: each issued request yields either
a response or none, the latter modelling a transport failure (an httpx
exception raised by the call). -/
def Net : Type := HttpRequest → Option HttpResponse

/-- The redirect statuses followed manually by _download_avatar. -/
def redirectStatuses : List Nat := [301, 302, 303, 307, 308]

/-- httpx codes.is_success: the 2xx range, the statuses for which
raise_for_status does not raise. -/
def is2xx (n : Nat) : Bool := (200 ≤ n) && (n ≤ 299)

/-- mimetypes.guess_extension, modelled from the standard table for the
media types the theorems exercise; unrecognized types yield none exactly as
the stdlib function does. -/
def guess_extension : String → Option String
  | "image/png" => some ".png"
  | "image/jpeg" => some ".jpg"
  | "image/gif" => some ".gif"
  | "image/webp" => some ".webp"
  | "image/svg+xml" => some ".svg"
  | "image/bmp" => some ".bmp"
  | _ => none

/-- content_type.split(";")[0] after lowercasing the Content-Type header
with default empty string, as computed in _download_avatar. -/
def contentTypeMain (r : HttpResponse) : String :=
  ⟨(splitOnChar ';' (pyLower ((headerGet r.headers "Content-Type").getD "")).data).headD []⟩

/-- The tail of _download_avatar on its final response: raise_for_status
(caught by the surrounding except, giving none) on a non-2xx status, else
the body bytes with the filename and MIME derived from the content type. -/
def finishResponse (r : HttpResponse) : Option (List Nat × String × String) :=
  if is2xx r.status then
    let ctMain := contentTypeMain r
    let ext := (guess_extension ctMain).getD ".png"
    let mime := if ctMain = "" then "image/png" else ctMain
    some (r.body, "avatar" ++ ext, mime)
  else none

/-- The header dict of the initial avatar request: a Bearer Authorization
header exactly when PLANE_API_TOKEN is set (truthy). -/
def initialHeaders (cfg : Config) : List (String × String) :=
  match cfg.planeApiToken with
  | some tok => if tok ≠ "" then [("Authorization", "Bearer " ++ tok)] else []
  | none => []

/-- new_headers.pop("Authorization", None) applied to a header dict. -/
def stripAuth (hs : List (String × String)) : List (String × String) :=
  hs.filter fun kv => kv.1 ≠ "Authorization"

/-- urllib.parse.urljoin as used in _download_avatar: the base is
PLANE_BASE_URL with a slash appended and the second argument is a relative
path with leading slashes stripped, for which urljoin appends the path to
the base. Other urljoin argument shapes are not exercised below. -/
def urljoinModel (base rel : String) : String := base ++ rel

/-- URL resolution at the top of _download_avatar: an empty path or an
unresolvable relative path (no PLANE_BASE_URL) gives none; an absolute URL
is used verbatim; otherwise the path is joined onto the base URL. -/
def resolveAvatarUrl (cfg : Config) (avatar_path : String) : Option String :=
  if avatar_path = "" then none
  else if _is_valid_url (.str avatar_path) then some avatar_path
  else if cfg.planeBaseUrl = "" then none
  else some (urljoinModel (cfg.planeBaseUrl ++ "/") (avatar_path.dropWhile (· = '/')))

/-- The coroutine _download_avatar from src/main.py, with the network passed explicitly.
Returns the result (bytes, filename, mime — none on any failure) together
with the list of requests issued, in order. follow_redirects=False is
represented by the explicit single-hop logic: only the requests below are
ever issued. The redirect hop strips the Authorization header; an empty or
missing Location falls through to raise_for_status on the 3xx response. -/
def _download_avatar (net : Net) (cfg : Config) (avatar_path : String) :
    Option (List Nat × String × String) × List HttpRequest :=
  match resolveAvatarUrl cfg avatar_path with
  | none => (none, [])
  | some url =>
    let headers := initialHeaders cfg
    let req1 : HttpRequest := { url := url, headers := headers }
    match net req1 with
    | none => (none, [req1])
    | some r1 =>
      if r1.status ∈ redirectStatuses then
        match headerGet r1.headers "Location" with
        | some loc =>
          if loc = "" then (finishResponse r1, [req1])
          else
            let req2 : HttpRequest := { url := loc, headers := stripAuth headers }
            match net req2 with
            | none => (none, [req1, req2])
            | some r2 => (finishResponse r2, [req1, req2])
        | none => (finishResponse r1, [req1])
      else (finishResponse r1, [req1])

/-- The response of the single POST to DISCORD_WEBHOOK_URL: its status, its
raw text body, and the outcome of attempting to parse that body as JSON
(none when resp.json() raises). -/
structure DiscordResponse where
  status : Nat
  bodyText : String
  bodyJson : Option JVal

/-- err_info in handle_plane_webhook: the parsed body when resp.json()
succeeds, else the raw text. -/
def errInfoStr (resp : DiscordResponse) : String :=
  match resp.bodyJson with
  | some j => pyStr j
  | none => resp.bodyText

/-- The body of the outbound Discord POST: plain JSON, or multipart with a
payload_json part and the avatar file part. The allowed_mentions directive
and JSON serialization are carried implicitly by the embeds list. -/
inductive DiscordPost where
  | jsonBody (embeds : List Embed)
  | multipartBody (embeds : List Embed) (filename : String) (bytes : List Nat)
      (mime : String)
deriving DecidableEq, Repr

/-- The endpoint result: the suppressed-notification message or the success
message (raised HTTPExceptions are the .error side of the handler). -/
inductive HandlerStatus where
  | suppressed
  | forwarded
deriving DecidableEq, Repr

/-- avatar_job in handle_plane_webhook: the avatar download is attempted
exactly when the activity, its actor and a truthy avatar_url are present. -/
def avatarJobOf (cfg : Config) (avatarNet : Net) (payload : PlaneWebhook) :
    Option (List Nat × String × String) :=
  match payload.activity with
  | some act =>
    match act.actor with
    | some actor =>
      match actor.avatar_url with
      | some u => if u ≠ "" then (_download_avatar avatarNet cfg u).1 else none
      | none => none
    | none => none
  | none => none

/-- author_icon in handle_plane_webhook: the attachment reference naming the
uploaded avatar file, when one was fetched. -/
def authorIconOf (cfg : Config) (avatarNet : Net) (payload : PlaneWebhook) :
    Option String :=
  (avatarJobOf cfg avatarNet payload).map fun j => "attachment://" ++ j.2.1

/-- handle_plane_webhook from src/main.py. The avatar network is passed
explicitly and discordResp is the response of the single POST to the
Discord webhook. The second component is the POST that was sent (none when
no relay was attempted). A non-2xx relay status raises HTTPException(500)
whose detail embeds the upstream status and the response body. -/
def handle_plane_webhook (cfg : Config) (avatarNet : Net)
    (discordResp : DiscordResponse) (now : String) (payload : PlaneWebhook) :
    Except PyErr HandlerStatus × Option DiscordPost :=
  let avatar_job := avatarJobOf cfg avatarNet payload
  match build_discord_embed payload (authorIconOf cfg avatarNet payload) now with
  | .error e => (.error e, none)
  | .ok none => (.ok .suppressed, none)
  | .ok (some embed) =>
    let post :=
      match avatar_job with
      | some (avatarBytes, filename, mime) =>
        DiscordPost.multipartBody [embed] filename avatarBytes mime
      | none => DiscordPost.jsonBody [embed]
    if discordResp.status = 200 ∨ discordResp.status = 204 then
      (.ok .forwarded, some post)
    else
      (.error (.httpException 500
        ("Discord webhook failed (" ++ toString discordResp.status ++ "): " ++
          errInfoStr discordResp)), some post)

/-- Whether a composer result is a rendered embed (as opposed to the
suppression value None or a raised exception). -/
def rendersEmbed (r : Except PyErr (Option Embed)) : Bool :=
  match r with
  | .ok (some _) => true
  | _ => false

/-- The name of the last field of a rendered embed, when there is one. -/
def lastFieldName (r : Except PyErr (Option Embed)) : Option String :=
  match r with
  | .ok (some e) => e.fields.getLast?.map EmbedField.name
  | _ => none

/-- The condition under which _download_avatar follows one redirect hop
after a request: the response arrived, has one of the five redirect
statuses, and carries a truthy Location header. -/
def followCond (net : Net) (req : HttpRequest) : Bool :=
  match net req with
  | some r =>
    decide (r.status ∈ redirectStatuses) &&
      (match headerGet r.headers "Location" with
       | some loc => loc ≠ ""
       | none => false)
  | none => false

/-- Whether the final response of an avatar download run — the response to
the last request issued — arrived with a success (2xx) status. -/
def finalRespSuccess (net : Net) (cfg : Config) (path : String) : Bool :=
  match ((_download_avatar net cfg path).2.getLast?).bind net with
  | some r => is2xx r.status
  | none => false

/-! ### Lemmas about the UUID shape and the sanitizer -/

theorem splitOnChar_ne_nil (sep : Char) (cs : List Char) : splitOnChar sep cs ≠ [] := by
  induction cs with
  | nil => simp [splitOnChar]
  | cons c rest ih =>
    simp only [splitOnChar]
    split
    · simp
    · match h : splitOnChar sep rest with
      | [] => simp
      | g :: gs => simp

theorem mem_splitOnChar {sep : Char} {cs : List Char} {c : Char} (hmem : c ∈ cs)
    (hne : c ≠ sep) : ∃ g ∈ splitOnChar sep cs, c ∈ g := by
  induction cs with
  | nil => simp at hmem
  | cons a rest ih =>
    rcases List.mem_cons.mp hmem with heq | hrest
    · have ha : ¬ (a = sep) := heq ▸ hne
      simp only [splitOnChar, if_neg ha]
      match h : splitOnChar sep rest with
      | [] => exact absurd h (splitOnChar_ne_nil sep rest)
      | g :: gs =>
        exact ⟨a :: g, List.mem_cons_self _ _, heq ▸ List.mem_cons_self _ _⟩
    · obtain ⟨g, hg, hcg⟩ := ih hrest
      by_cases ha : a = sep
      · subst ha
        simp only [splitOnChar, if_pos rfl]
        exact ⟨g, List.mem_cons_of_mem _ hg, hcg⟩
      · simp only [splitOnChar, if_neg ha]
        match h : splitOnChar sep rest with
        | [] => exact absurd h (splitOnChar_ne_nil sep rest)
        | g0 :: gs =>
          rw [h] at hg
          rcases List.mem_cons.mp hg with heq2 | hgs
          · exact ⟨a :: g0, List.mem_cons_self _ _,
              List.mem_cons_of_mem _ (heq2 ▸ hcg)⟩
          · exact ⟨g, List.mem_cons_of_mem _ hgs, hcg⟩

theorem uuidBody_eq_false_of_mem {cs : List Char} {c : Char} (hmem : c ∈ cs)
    (hhex : isHexDigit c = false) (hne : c ≠ '-') : uuidBody cs = false := by
  by_contra h
  have hb : uuidBody cs = true := by
    cases hu : uuidBody cs with
    | false => exact absurd hu h
    | true => rfl
  obtain ⟨g, hg, hcg⟩ := mem_splitOnChar hmem hne
  unfold uuidBody splitDash at hb
  match hs : splitOnChar '-' cs with
  | [a, b, c', d, e] =>
    rw [hs] at hb hg
    simp only [Bool.and_eq_true, List.all_eq_true] at hb
    fin_cases hg
    · exact absurd (hb.1.1.1.1.2 c hcg) (by simp [hhex])
    · exact absurd (hb.1.1.1.2 c hcg) (by simp [hhex])
    · exact absurd (hb.1.1.2 c hcg) (by simp [hhex])
    · exact absurd (hb.1.2 c hcg) (by simp [hhex])
    · exact absurd (hb.2 c hcg) (by simp [hhex])
  | [] => rw [hs] at hb; simp at hb
  | [a] => rw [hs] at hb; simp at hb
  | [a, b] => rw [hs] at hb; simp at hb
  | [a, b, c'] => rw [hs] at hb; simp at hb
  | [a, b, c', d] => rw [hs] at hb; simp at hb
  | a :: b :: c' :: d :: e :: f :: rest => rw [hs] at hb; simp at hb

theorem uuidChars_eq_false_of_space {cs : List Char} (h1 : ' ' ∈ cs)
    (h2 : ' ' ∈ cs.dropLast) : uuidChars cs = false := by
  have hhex : isHexDigit ' ' = false := by decide
  have hne : (' ' : Char) ≠ '-' := by decide
  unfold uuidChars
  rw [uuidBody_eq_false_of_mem h1 hhex hne, uuidBody_eq_false_of_mem h2 hhex hne]
  simp

theorem arrow_change_data (o n : JVal) :
    (_arrow_change o n).data =
      ((_sanitize_value o).data ++ [' ']) ++ '➜' :: ' ' :: (_sanitize_value n).data := by
  unfold _arrow_change
  rw [String.data_append, String.data_append]
  simp [List.append_assoc]

theorem space_mem_arrow (o n : JVal) : ' ' ∈ (_arrow_change o n).data := by
  rw [arrow_change_data]
  simp

theorem space_mem_arrow_dropLast (o n : JVal) :
    ' ' ∈ (_arrow_change o n).data.dropLast := by
  rw [arrow_change_data, List.dropLast_append_cons]
  simp

theorem uuidMatch_arrow_eq_false (o n : JVal) : uuidMatch (_arrow_change o n) = false :=
  uuidChars_eq_false_of_space (space_mem_arrow o n) (space_mem_arrow_dropLast o n)

theorem arrow_change_ne_empty (o n : JVal) : _arrow_change o n ≠ "" := by
  intro h
  have := space_mem_arrow o n
  rw [h] at this
  simp at this

/-- The sanitizer is the identity on arrow-rendered change strings: they are
non-empty and never UUID-shaped. -/
theorem sanitize_arrow_change (o n : JVal) :
    _sanitize_value (.str (_arrow_change o n)) = _arrow_change o n := by
  show (if _arrow_change o n = "" then "—"
        else if uuidMatch (_arrow_change o n) then "—" else _arrow_change o n) =
      _arrow_change o n
  rw [if_neg (arrow_change_ne_empty o n), uuidMatch_arrow_eq_false o n]
  simp

/-! ### Inversion of build_discord_embed -/

/-- Whenever build_discord_embed returns an embed, that embed is assembled
from the base fields, the event-specific section and the change section. -/
theorem build_ok_some_inv {p : PlaneWebhook} {icon : Option String} {now : String}
    {e : Embed} (h : build_discord_embed p icon now = .ok (some e)) :
    ∃ sf t cf, eventSpecific p = .ok (sf, t) ∧ changeSection p = .ok (some cf) ∧
      e = { title := (EVENT_ICON.lookup p.event).getD "ℹ️" ++ "  " ++ pyStr t
            color := (ACTION_COLOR.lookup (pyLower p.action)).getD 0x3498DB
            fields := baseFields p ++ sf ++ cf
            timestamp := now
            thumbnail := thumbnailOf p
            author := authorBlock p icon } := by
  unfold build_discord_embed at h
  match h1 : eventSpecific p with
  | .error err => rw [h1] at h; cases h
  | .ok (sf, t) =>
    rw [h1] at h
    match h2 : changeSection p with
    | .error err => rw [h2] at h; cases h
    | .ok none => rw [h2] at h; cases h
    | .ok (some cf) =>
      rw [h2] at h
      refine ⟨sf, t, cf, rfl, rfl, ?_⟩
      cases h
      rfl

/-! ### Field provenance: every embed field value is sanitizer output -/

theorem baseFields_sanitized (p : PlaneWebhook) :
    ∀ f ∈ baseFields p, ∃ v, f.value = _sanitize_value v := by
  intro f hf
  simp only [baseFields, _make_field, List.mem_cons, List.not_mem_nil, or_false] at hf
  rcases hf with rfl | rfl | rfl
  · exact ⟨.str (pyCapitalize p.event), rfl⟩
  · exact ⟨.str (pyCapitalize p.action), rfl⟩
  · exact ⟨optStrJVal (actorNameOf p), rfl⟩

theorem eventSpecific_sanitized {p : PlaneWebhook} {sf : List EmbedField} {t : JVal}
    (h : eventSpecific p = .ok (sf, t)) :
    ∀ f ∈ sf, ∃ v, f.value = _sanitize_value v := by
  intro f hf
  unfold eventSpecific at h
  by_cases hi : p.event = "issue"
  · rw [if_pos hi] at h
    match h1 : pyGet ((p.data.lookup "state").getD (.dict [])) "name" with
    | .error err => rw [h1] at h; cases h
    | .ok stateName =>
      rw [h1] at h; dsimp only at h
      match h2 : pyIter ((p.data.lookup "assignees").getD (.list [])) with
      | .error err => rw [h2] at h; cases h
      | .ok items =>
        rw [h2] at h; dsimp only at h
        match h3 : assigneeNames items with
        | .error err => rw [h3] at h; cases h
        | .ok assignees =>
          rw [h3] at h; dsimp only at h
          cases h
          simp only [_make_field, List.mem_cons, List.not_mem_nil, or_false] at hf
          rcases hf with rfl | rfl
          · exact ⟨stateName, rfl⟩
          · exact ⟨.list assignees, rfl⟩
  · rw [if_neg hi] at h
    by_cases hp : p.event = "project"
    · rw [if_pos hp] at h
      cases h
      simp at hf
    · rw [if_neg hp] at h
      cases h
      simp at hf

theorem changeSection_sanitized {p : PlaneWebhook} {cf : List EmbedField}
    (h : changeSection p = .ok (some cf)) :
    ∀ f ∈ cf, ∃ v, f.value = _sanitize_value v := by
  intro f hf
  unfold changeSection at h
  match hact : p.activity with
  | none => rw [hact] at h; cases h; simp at hf
  | some act =>
    rw [hact] at h; dsimp only at h
    match hfield : act.field with
    | none => rw [hfield] at h; cases h; simp at hf
    | some fn =>
      rw [hfield] at h; dsimp only at h
      by_cases h0 : fn = ""
      · rw [if_pos h0] at h; cases h; simp at hf
      · rw [if_neg h0] at h
        by_cases hid : pyEndsWith fn "_id"
        · rw [if_pos hid] at h; cases h
        · rw [if_neg hid] at h
          match hv : (if fn = "state_id" then
                 match pyGet ((p.data.lookup "state").getD (.dict [])) "name" with
                 | .error e => .error e
                 | .ok st => .ok (act.old_value, pyOr st act.new_value)
               else
                 .ok (act.old_value, act.new_value) : Except PyErr (JVal × JVal)) with
          | .error err => rw [hv] at h; cases h
          | .ok vals =>
            rw [hv] at h
            cases h
            simp only [_make_field, List.mem_cons, List.not_mem_nil, or_false] at hf
            rcases hf with rfl
            exact ⟨.str (_arrow_change vals.1 vals.2), rfl⟩

/-- Unfolding of the sanitizer on strings. -/
theorem sanitize_str (s : String) :
    _sanitize_value (.str s) = if s = "" then "—" else if uuidMatch s then "—" else s := rfl

/-- The author block always carries the resolved actor name, whatever the
icon argument. -/
theorem authorBlock_name (p : PlaneWebhook) (icon : Option String) :
    (authorBlock p icon).name = actorNameOf p := by
  unfold authorBlock
  match icon with
  | none => rfl
  | some s =>
    dsimp only
    split <;> rfl

/-! ### Claim C1 -/

/-- The event of the specification example for the state_id special case:
an issue whose state_id changed from one identifier to another, with the
current state name Done available under data.state.name. -/
def payloadC1 : PlaneWebhook :=
  { event := "issue", action := "updated",
    data := [("state", .dict [("name", .str "Done")])],
    activity := some { field := some "state_id", new_value := .str "def-uuid",
                       old_value := .str "abc-uuid", actor := none } }

/-- C1: the claim says a state_id change is rendered with data.state.name
as the new-side value; the code instead suppresses the whole notification,
because the early return on field names ending in _id catches state_id
before the special case (which is dead code). At the specification example
the composer returns None. -/
theorem state_id_change_suppressed_at_spec_example :
    build_discord_embed payloadC1 none "2025-01-01T00:00:00+00:00" = .ok none ∧
    pyEndsWith "state_id" "_id" = true := by
  exact ⟨by rfl, by rfl⟩

/-! ### Claim C7 -/

/-- C7: the sanitizer is idempotent on strings; the placeholder is a fixed
point and every non-empty, non-UUID-shaped string is a fixed point. -/
theorem sanitize_idempotent_on_strings (s : String) :
    _sanitize_value (.str (_sanitize_value (.str s))) = _sanitize_value (.str s) ∧
    _sanitize_value (.str "—") = "—" ∧
    (s ≠ "" → uuidMatch s = false → _sanitize_value (.str s) = s) := by
  have hdash : _sanitize_value (.str "—") = "—" := by rfl
  have hfix : ∀ t : String, t ≠ "" → uuidMatch t = false → _sanitize_value (.str t) = t := by
    intro t h0 hu
    rw [sanitize_str t, if_neg h0, hu]
    simp
  refine ⟨?_, hdash, fun h0 hu => hfix s h0 hu⟩
  by_cases h0 : s = ""
  · rw [sanitize_str s, if_pos h0]
    exact hdash
  · cases hu : uuidMatch s with
    | true =>
      have hred : _sanitize_value (.str s) = "—" := by
        rw [sanitize_str s, if_neg h0, hu]
        simp
      rw [hred]
      exact hdash
    | false =>
      rw [hfix s h0 hu]
      exact hfix s h0 hu

/-- Witness for C7 at the string hello. -/
theorem sanitize_idempotent_on_strings_witness :
    ("hello" ≠ "") ∧ uuidMatch "hello" = false ∧
    _sanitize_value (.str "hello") = "hello" :=
  ⟨by decide, by rfl,
   (sanitize_idempotent_on_strings "hello").2.2 (by decide) (by rfl)⟩

/-! ### Claim C3 -/

/-- C3 (amended): with an activity whose non-empty field name ends in _id
(and differs from state_id) the composer never renders an embed: it
suppresses (returns None) whenever it returns at all. It can instead raise
before reaching the suppression check, because the event-specific section
runs first (see the counterexample below). -/
theorem id_suffix_never_renders_embed (p : PlaneWebhook) (icon : Option String)
    (now : String) (act : Activity) (fn : String)
    (hact : p.activity = some act) (hfn : act.field = some fn) (hne : fn ≠ "")
    (hid : pyEndsWith fn "_id" = true) (hnst : fn ≠ "state_id") :
    rendersEmbed (build_discord_embed p icon now) = false := by
  have hcs : changeSection p = .ok none := by
    unfold changeSection
    rw [hact]; dsimp only
    rw [hfn]; dsimp only
    rw [if_neg hne, if_pos hid]
  unfold build_discord_embed
  match h1 : eventSpecific p with
  | .error err => rfl
  | .ok (sf, t) =>
    dsimp only
    rw [hcs]
    rfl

/-- Counterexample to C3 as stated: the claim says the composer returns
None regardless of any other event content, but for an issue event whose
data.state is not a mapping the state lookup raises AttributeError before
the suppression check is reached, so nothing is returned at all. -/
def payloadC3 : PlaneWebhook :=
  { event := "issue", action := "updated", data := [("state", .str "x")],
    activity := some { field := some "parent_id" } }

/-- The composer raises (rather than returning None) on payloadC3, whose
activity field parent_id satisfies all the hypotheses of the claim. -/
theorem id_suffix_suppression_can_raise :
    build_discord_embed payloadC3 none "2025-01-01T00:00:00+00:00" =
      .error .attributeError ∧
    pyEndsWith "parent_id" "_id" = true ∧ "parent_id" ≠ "state_id" :=
  ⟨by rfl, by rfl, by decide⟩

/-- A suppressed event for the C3 witness: a comment whose parent_id
changed; no issue-specific data access happens, so the suppression value is
returned. -/
def actC3w : Activity := { field := some "parent_id" }

def payloadC3w : PlaneWebhook :=
  { event := "comment", action := "updated", activity := some actC3w }

/-- Witness for C3 at payloadC3w. -/
theorem id_suffix_never_renders_embed_witness :
    payloadC3w.activity = some actC3w ∧ actC3w.field = some "parent_id" ∧
    ("parent_id" ≠ "") ∧ pyEndsWith "parent_id" "_id" = true ∧
    ("parent_id" ≠ "state_id") ∧
    rendersEmbed (build_discord_embed payloadC3w none "ts") = false :=
  ⟨rfl, rfl, by decide, by rfl, by decide,
   id_suffix_never_renders_embed payloadC3w none "ts" actC3w "parent_id" rfl rfl
     (by decide) (by rfl) (by decide)⟩

/-! ### Claim C2 -/

/-- Unfolding of the sanitizer on a non-empty list. -/
theorem sanitize_list_cons_eq (v : JVal) (vs : List JVal) :
    _sanitize_value (.list (v :: vs)) =
      (if String.intercalate ", "
            ((_sanitize_value v :: sanitizeList vs).filter (· ≠ "—")) = ""
       then "—"
       else String.intercalate ", "
            ((_sanitize_value v :: sanitizeList vs).filter (· ≠ "—"))) := rfl

/-- The sanitizer redacts a UUID-shaped string to the placeholder. -/
theorem sanitize_uuid_str (s : String) (hu : uuidMatch s = true) :
    _sanitize_value (.str s) = "—" := by
  rw [sanitize_str s]
  by_cases h0 : s = ""
  · rw [if_pos h0]
  · rw [if_neg h0, hu]
    simp

/-- A UUID-shaped string element contributes nothing to a sanitized list:
it is redacted to the placeholder, which the join then filters out. -/
theorem sanitize_list_drop_uuid (u : String) (xs : List JVal)
    (hu : uuidMatch u = true) :
    _sanitize_value (.list (.str u :: xs)) = _sanitize_value (.list xs) := by
  have hs : _sanitize_value (.str u) = "—" := sanitize_uuid_str u hu
  rw [sanitize_list_cons_eq (.str u) xs, hs]
  have hfil : ("—" :: sanitizeList xs).filter (· ≠ "—") =
      (sanitizeList xs).filter (· ≠ "—") := by
    simp
  rw [hfil]
  match xs with
  | [] => rfl
  | v :: vs =>
    rw [sanitize_list_cons_eq v vs]
    rfl

/-- The sanitizer does not redact a UUID-shaped string stored under a
human-name key of a mapping: the dict branch returns str(value[k]) with no
UUID check. -/
theorem sanitize_dict_name_passthrough (u : String) (hu : uuidMatch u = true) :
    _sanitize_value (.dict [("name", .str u)]) = u := by
  have hne : u ≠ "" := by
    intro h
    rw [h] at hu
    exact absurd hu (by decide)
  have hk : dictNameKey [("name", .str u)] = some (.str u) := by
    unfold dictNameKey
    simp [List.lookup, truthy, hne]
  show (match dictNameKey [("name", JVal.str u)] with
        | some v => pyStr v
        | none => pyStr (.dict [("name", JVal.str u)])) = u
  rw [hk]
  rfl

def uuidC2 : String := "12345678-1234-1234-1234-123456789abc"

/-- A project creation event whose name is a raw UUID. -/
def payloadC2 : PlaneWebhook :=
  { event := "project", action := "created", data := [("name", .str uuidC2)] }

/-- A comment event whose activity old value is a mapping carrying a raw
UUID under its name key. -/
def payloadC2f : PlaneWebhook :=
  { event := "comment", action := "updated",
    activity := some { field := some "assignee",
                       new_value := .str "Alice",
                       old_value := .dict [("name", .str uuidC2)] } }

/-- The value of the last field of a rendered embed, when there is one. -/
def lastFieldValue (r : Except PyErr (Option Embed)) : Option String :=
  match r with
  | .ok (some e) => e.fields.getLast?.map EmbedField.value
  | _ => none

/-- Counterexample to C2 as stated, on both scopes of the invariant. The
embed title is built from data.name without passing through the sanitizer,
so a UUID-shaped event value appears verbatim in the title (the last
conjunct shows the sanitizer would have redacted it); and a UUID-shaped
string inside a mapping-shaped activity old value reaches the rendered
change-field value verbatim, because the sanitizer passes mapping name-key
values through unredacted. -/
theorem embed_exposes_raw_uuid :
    (build_discord_embed payloadC2 none "ts").map (fun o => o.map Embed.title) =
      .ok (some ("📁  " ++ uuidC2)) ∧
    lastFieldValue (build_discord_embed payloadC2f none "ts") =
      some (uuidC2 ++ " ➜ Alice") ∧
    uuidMatch uuidC2 = true ∧
    _sanitize_value (.str uuidC2) = "—" :=
  ⟨by rfl, by rfl, by rfl, by rfl⟩

/-- C2 (amended): every field value of a rendered embed is the sanitizer
applied to its event-derived datum, and the sanitizer redacts a
UUID-shaped string whenever the datum is that string itself, and drops
UUID-shaped string elements from sanitized lists; but a UUID-shaped string
reached through a human-name key of a mapping datum is returned verbatim,
so mapping-shaped event data can carry a raw UUID into a field value; the
title and author name are not passed through the sanitizer at all. -/
theorem embed_field_values_sanitized :
    (∀ (p : PlaneWebhook) (icon : Option String) (now : String) (e : Embed),
      build_discord_embed p icon now = .ok (some e) →
      ∀ f ∈ e.fields, ∃ v, f.value = _sanitize_value v) ∧
    (∀ s : String, uuidMatch s = true → _sanitize_value (.str s) = "—") ∧
    (∀ (u : String) (xs : List JVal), uuidMatch u = true →
      _sanitize_value (.list (.str u :: xs)) = _sanitize_value (.list xs)) ∧
    (∀ u : String, uuidMatch u = true →
      _sanitize_value (.dict [("name", .str u)]) = u) := by
  refine ⟨?_, sanitize_uuid_str, sanitize_list_drop_uuid, sanitize_dict_name_passthrough⟩
  intro p icon now e h f hf
  obtain ⟨sf, t, cf, h1, h2, he⟩ := build_ok_some_inv h
  subst he
  simp only [List.mem_append] at hf
  rcases hf with (hf | hf) | hf
  · exact baseFields_sanitized p f hf
  · exact eventSpecific_sanitized h1 f hf
  · exact changeSection_sanitized h2 f hf

/-- The embed rendered for the C2 witness event. -/
def embedC2w : Embed :=
  { title := "📁  P", color := 0x2ECC71,
    fields := [{ name := "Event", value := "Project", inline := true },
               { name := "Action", value := "Created", inline := true },
               { name := "By", value := "Unknown", inline := true }],
    timestamp := "ts", thumbnail := none,
    author := { name := some "Unknown", icon_url := none } }

def payloadC2w : PlaneWebhook :=
  { event := "project", action := "created", data := [("name", .str "P")] }

/-- Witness for C2: field provenance at payloadC2w, and the three sanitizer
facts at the concrete UUID literal. -/
theorem embed_field_values_sanitized_witness :
    build_discord_embed payloadC2w none "ts" = .ok (some embedC2w) ∧
    (∃ v, ({ name := "By", value := "Unknown", inline := true } : EmbedField).value =
        _sanitize_value v) ∧
    uuidMatch uuidC2 = true ∧
    _sanitize_value (.str uuidC2) = "—" ∧
    _sanitize_value (.list [.str uuidC2, .str "Alice"]) =
      _sanitize_value (.list [.str "Alice"]) ∧
    _sanitize_value (.dict [("name", .str uuidC2)]) = uuidC2 :=
  ⟨by rfl,
   embed_field_values_sanitized.1 payloadC2w none "ts" embedC2w (by rfl)
     { name := "By", value := "Unknown", inline := true } (by simp [embedC2w]),
   by rfl,
   embed_field_values_sanitized.2.1 uuidC2 (by rfl),
   embed_field_values_sanitized.2.2.1 uuidC2 [.str "Alice"] (by rfl),
   embed_field_values_sanitized.2.2.2 uuidC2 (by rfl)⟩

/-! ### Claim C8 -/

/-- C8 (amended): for a non-suppressed change, the appended field is
non-inline with value arrow_change(old, new); its label is the field name
with every occurrence of the substring _id removed (not only a trailing
one), underscores replaced by spaces, and the result capitalized. -/
theorem change_field_label_and_value (p : PlaneWebhook) (icon : Option String)
    (now : String) (act : Activity) (fn : String) (e : Embed)
    (hact : p.activity = some act) (hfn : act.field = some fn) (hne : fn ≠ "")
    (hid : pyEndsWith fn "_id" = false)
    (h : build_discord_embed p icon now = .ok (some e)) :
    e.fields.getLast? = some
      { name := pyCapitalize (pyReplace (pyReplace fn "_id" "") "_" " ")
        value := _arrow_change act.old_value act.new_value
        inline := false } := by
  have hnst : fn ≠ "state_id" := by
    intro hfn'
    rw [hfn'] at hid
    exact absurd hid (by decide)
  have hcs : changeSection p = .ok (some
      [_make_field (pyCapitalize (pyReplace (pyReplace fn "_id" "") "_" " "))
        (.str (_arrow_change act.old_value act.new_value)) false]) := by
    unfold changeSection
    rw [hact]; dsimp only
    rw [hfn]; dsimp only
    rw [if_neg hne, if_neg (by simp [hid]), if_neg hnst]
  obtain ⟨sf, t, cf, h1, h2, he⟩ := build_ok_some_inv h
  rw [hcs] at h2
  simp only [Except.ok.injEq, Option.some.injEq] at h2
  subst h2
  subst he
  dsimp only
  rw [List.getLast?_concat]
  unfold _make_field
  rw [sanitize_arrow_change]

/-- A comment event changing the field target_identifier: it contains _id
as an interior substring but does not end with it. -/
def payloadC8 : PlaneWebhook :=
  { event := "comment", action := "updated",
    activity := some { field := some "target_identifier", new_value := .str "b",
                       old_value := .str "a" } }

/-- Counterexample to C8 as stated: the claim derives the label by
stripping only a trailing _id, which for target_identifier would give the
label Target identifier; the code removes every occurrence of the
substring _id, producing Targetentifier. -/
theorem change_label_strips_interior_id :
    lastFieldName (build_discord_embed payloadC8 none "ts") = some "Targetentifier" ∧
    ("Targetentifier" ≠ "Target identifier") ∧
    pyEndsWith "target_identifier" "_id" = false :=
  ⟨by rfl, by decide, by rfl⟩

def actC8w : Activity :=
  { field := some "due_date", new_value := .str "2025-02-01", old_value := .null }

def payloadC8w : PlaneWebhook :=
  { event := "comment", action := "updated", activity := some actC8w }

/-- The embed rendered for the C8 witness event. -/
def embedC8w : Embed :=
  { title := "💬  Comment", color := 0xF1C40F,
    fields := [{ name := "Event", value := "Comment", inline := true },
               { name := "Action", value := "Updated", inline := true },
               { name := "By", value := "Unknown", inline := true },
               { name := "Due date", value := "— ➜ 2025-02-01", inline := false }],
    timestamp := "ts", thumbnail := none,
    author := { name := some "Unknown", icon_url := none } }

/-- Witness for C8 at payloadC8w: a due_date change renders as the
non-inline field Due date with an arrow value. -/
theorem change_field_label_and_value_witness :
    payloadC8w.activity = some actC8w ∧ actC8w.field = some "due_date" ∧
    ("due_date" ≠ "") ∧ pyEndsWith "due_date" "_id" = false ∧
    build_discord_embed payloadC8w none "ts" = .ok (some embedC8w) ∧
    embedC8w.fields.getLast? =
      some { name := "Due date", value := "— ➜ 2025-02-01", inline := false } :=
  ⟨rfl, rfl, by decide, by rfl, by rfl,
   change_field_label_and_value payloadC8w none "ts" actC8w "due_date" embedC8w
     rfl rfl (by decide) (by rfl) (by rfl)⟩

/-! ### Claim C10 -/

/-- C10: with an actor present but lacking a display name, the By field is
the placeholder and the author name is the absent value; the literal
Unknown appears exactly when the activity or the actor is absent. -/
theorem absent_display_name_rendering :
    (∀ (p : PlaneWebhook) (icon : Option String) (now : String) (act : Activity)
        (actor : Actor) (e : Embed),
      p.activity = some act → act.actor = some actor → actor.display_name = none →
      build_discord_embed p icon now = .ok (some e) →
      e.fields[2]? = some { name := "By", value := "—", inline := true } ∧
        e.author.name = none) ∧
    (∀ (p : PlaneWebhook) (icon : Option String) (now : String) (e : Embed),
      (p.activity = none ∨ ∃ act, p.activity = some act ∧ act.actor = none) →
      build_discord_embed p icon now = .ok (some e) →
      e.author.name = some "Unknown") := by
  constructor
  · intro p icon now act actor e hact hactor hname h
    obtain ⟨sf, t, cf, h1, h2, he⟩ := build_ok_some_inv h
    subst he
    have hnameof : actorNameOf p = none := by
      unfold actorNameOf
      rw [hact]; dsimp only
      rw [hactor]; dsimp only
      exact hname
    constructor
    · dsimp only
      have hb3 : (baseFields p).length = 3 := rfl
      rw [List.getElem?_append_left (by rw [List.length_append, hb3]; omega),
          List.getElem?_append_left (by rw [hb3]; omega)]
      have hby : (baseFields p)[2]? = some (_make_field "By" (optStrJVal (actorNameOf p)) true) := rfl
      rw [hby, hnameof]
      rfl
    · dsimp only
      rw [authorBlock_name, hnameof]
  · intro p icon now e hor h
    obtain ⟨sf, t, cf, h1, h2, he⟩ := build_ok_some_inv h
    subst he
    have hnameof : actorNameOf p = some "Unknown" := by
      unfold actorNameOf
      rcases hor with hnone | ⟨act, hact, hactor⟩
      · rw [hnone]
      · rw [hact]; dsimp only
        rw [hactor]
    dsimp only
    rw [authorBlock_name, hnameof]

def actorC10 : Actor := { id := "u1" }

def actC10 : Activity := { actor := some actorC10 }

def payloadC10 : PlaneWebhook :=
  { event := "task", action := "created", activity := some actC10 }

/-- The embed rendered for payloadC10: placeholder By value, absent author
name. -/
def embedC10 : Embed :=
  { title := "ℹ️  Task", color := 0x2ECC71,
    fields := [{ name := "Event", value := "Task", inline := true },
               { name := "Action", value := "Created", inline := true },
               { name := "By", value := "—", inline := true }],
    timestamp := "ts", thumbnail := none,
    author := { name := none, icon_url := none } }

def payloadC10b : PlaneWebhook := { event := "task", action := "created" }

/-- The embed rendered for payloadC10b: no activity at all, so the literal
Unknown is used. -/
def embedC10b : Embed :=
  { title := "ℹ️  Task", color := 0x2ECC71,
    fields := [{ name := "Event", value := "Task", inline := true },
               { name := "Action", value := "Created", inline := true },
               { name := "By", value := "Unknown", inline := true }],
    timestamp := "ts", thumbnail := none,
    author := { name := some "Unknown", icon_url := none } }

/-- Witness for C10 at payloadC10 (actor without display name) and
payloadC10b (no activity). -/
theorem absent_display_name_rendering_witness :
    payloadC10.activity = some actC10 ∧ actC10.actor = some actorC10 ∧
    actorC10.display_name = none ∧
    build_discord_embed payloadC10 none "ts" = .ok (some embedC10) ∧
    (embedC10.fields[2]? = some { name := "By", value := "—", inline := true } ∧
      embedC10.author.name = none) ∧
    (build_discord_embed payloadC10b none "ts" = .ok (some embedC10b) ∧
      embedC10b.author.name = some "Unknown") :=
  ⟨rfl, rfl, rfl, by rfl,
   absent_display_name_rendering.1 payloadC10 none "ts" actC10 actorC10 embedC10
     rfl rfl rfl (by rfl),
   by rfl,
   absent_display_name_rendering.2 payloadC10b none "ts" embedC10b (Or.inl rfl) (by rfl)⟩

/-! ### Run analysis of the avatar download -/

/-- Stripping the Authorization header really removes it, for any header
dict _download_avatar builds. -/
theorem stripAuth_lookup_none (cfg : Config) :
    (stripAuth (initialHeaders cfg)).lookup "Authorization" = none := by
  unfold initialHeaders stripAuth
  match cfg.planeApiToken with
  | none => rfl
  | some tok =>
    dsimp only
    split
    · rfl
    · rfl

/-- Exhaustive characterization of one _download_avatar run: either the URL
does not resolve and no request is issued, or the initial request is issued
and the run ends after it (transport failure, or no redirect to follow), or
exactly one redirect hop is followed with the Authorization header
stripped. -/
theorem download_avatar_run (net : Net) (cfg : Config) (path : String) :
    (resolveAvatarUrl cfg path = none ∧ _download_avatar net cfg path = (none, [])) ∨
    (∃ url, resolveAvatarUrl cfg path = some url ∧
      ((net { url := url, headers := initialHeaders cfg } = none ∧
         _download_avatar net cfg path =
           (none, [{ url := url, headers := initialHeaders cfg }])) ∨
       (∃ r1, net { url := url, headers := initialHeaders cfg } = some r1 ∧
         ((followCond net { url := url, headers := initialHeaders cfg } = false ∧
            _download_avatar net cfg path =
              (finishResponse r1, [{ url := url, headers := initialHeaders cfg }])) ∨
          (∃ loc, followCond net { url := url, headers := initialHeaders cfg } = true ∧
            headerGet r1.headers "Location" = some loc ∧ loc ≠ "" ∧
            ((net { url := loc, headers := stripAuth (initialHeaders cfg) } = none ∧
               _download_avatar net cfg path =
                 (none, [{ url := url, headers := initialHeaders cfg },
                         { url := loc, headers := stripAuth (initialHeaders cfg) }])) ∨
             (∃ r2, net { url := loc, headers := stripAuth (initialHeaders cfg) } = some r2 ∧
               _download_avatar net cfg path =
                 (finishResponse r2,
                  [{ url := url, headers := initialHeaders cfg },
                   { url := loc, headers := stripAuth (initialHeaders cfg) }])))))))) := by
  match hres : resolveAvatarUrl cfg path with
  | none =>
    left
    refine ⟨rfl, ?_⟩
    unfold _download_avatar
    rw [hres]
  | some url =>
    right
    refine ⟨url, rfl, ?_⟩
    match hnet : net { url := url, headers := initialHeaders cfg } with
    | none =>
      left
      refine ⟨rfl, ?_⟩
      unfold _download_avatar
      rw [hres]; dsimp only; rw [hnet]
    | some r1 =>
      right
      refine ⟨r1, rfl, ?_⟩
      by_cases hst : r1.status ∈ redirectStatuses
      · match hloc : headerGet r1.headers "Location" with
        | none =>
          left
          constructor
          · unfold followCond
            rw [hnet]; dsimp only
            rw [hloc]
            simp
          · unfold _download_avatar
            rw [hres]; dsimp only; rw [hnet]; dsimp only
            rw [if_pos hst, hloc]
        | some loc =>
          by_cases hl0 : loc = ""
          · left
            constructor
            · unfold followCond
              rw [hnet]; dsimp only
              rw [hloc]
              simp [hl0]
            · unfold _download_avatar
              rw [hres]; dsimp only; rw [hnet]; dsimp only
              rw [if_pos hst, hloc]; dsimp only
              rw [if_pos hl0]
          · right
            refine ⟨loc, ?_, rfl, hl0, ?_⟩
            · unfold followCond
              rw [hnet]; dsimp only
              rw [hloc]
              simp [hst, hl0]
            · match hnet2 : net { url := loc, headers := stripAuth (initialHeaders cfg) } with
              | none =>
                left
                refine ⟨rfl, ?_⟩
                unfold _download_avatar
                rw [hres]; dsimp only; rw [hnet]; dsimp only
                rw [if_pos hst, hloc]; dsimp only
                rw [if_neg hl0]
                rw [hnet2]
              | some r2 =>
                right
                refine ⟨r2, rfl, ?_⟩
                unfold _download_avatar
                rw [hres]; dsimp only; rw [hnet]; dsimp only
                rw [if_pos hst, hloc]; dsimp only
                rw [if_neg hl0]
                rw [hnet2]
      · left
        constructor
        · unfold followCond
          rw [hnet]; dsimp only
          simp [hst]
        · unfold _download_avatar
          rw [hres]; dsimp only; rw [hnet]; dsimp only
          rw [if_neg hst]

/-! ### Claim C4 -/

/-- C4 (amended): the requests of one _download_avatar run. At most two
requests are ever issued (redirects are never followed automatically and
never beyond one hop); the first goes to the resolved URL with the
configured headers; a follow-up is issued exactly when the first response
has a redirect status and carries a non-empty Location value; and the
follow-up goes to that location with the Authorization header removed. -/
theorem download_avatar_single_redirect (net : Net) (cfg : Config) (path : String) :
    (_download_avatar net cfg path).2.length ≤ 2 ∧
    (∀ url, resolveAvatarUrl cfg path = some url →
      ((_download_avatar net cfg path).2.head? =
          some { url := url, headers := initialHeaders cfg } ∧
       ((_download_avatar net cfg path).2.length = 2 ↔
          followCond net { url := url, headers := initialHeaders cfg } = true) ∧
       (∀ r1 loc, net { url := url, headers := initialHeaders cfg } = some r1 →
          r1.status ∈ redirectStatuses →
          headerGet r1.headers "Location" = some loc → loc ≠ "" →
          (_download_avatar net cfg path).2 =
            [{ url := url, headers := initialHeaders cfg },
             { url := loc, headers := stripAuth (initialHeaders cfg) }] ∧
          (stripAuth (initialHeaders cfg)).lookup "Authorization" = none))) := by
  rcases download_avatar_run net cfg path with
    ⟨hres, hdl⟩ |
    ⟨url0, hres, ⟨hnet, hdl⟩ | ⟨r1, hnet, ⟨hfc, hdl⟩ |
      ⟨loc0, hfc, hloc, hl0, ⟨hnet2, hdl⟩ | ⟨r2, hnet2, hdl⟩⟩⟩⟩
  · constructor
    · rw [hdl]; simp
    · intro url hurl
      rw [hres] at hurl
      cases hurl
  · constructor
    · rw [hdl]; simp
    · intro url hurl
      obtain rfl : url0 = url := Option.some.inj (hres.symm.trans hurl)
      have hfc : followCond net { url := url0, headers := initialHeaders cfg } = false := by
        unfold followCond
        rw [hnet]
      refine ⟨by simp [hdl], ?_, ?_⟩
      · rw [hdl, hfc]
        simp
      · intro r1 loc hr1 _ _ _
        rw [hnet] at hr1
        cases hr1
  · constructor
    · rw [hdl]; simp
    · intro url hurl
      obtain rfl : url0 = url := Option.some.inj (hres.symm.trans hurl)
      refine ⟨by simp [hdl], ?_, ?_⟩
      · rw [hdl, hfc]
        simp
      · intro r1' loc hr1 hst' hloc' hl0'
        obtain rfl : r1 = r1' := Option.some.inj (hnet.symm.trans hr1)
        unfold followCond at hfc
        rw [hnet] at hfc
        dsimp only at hfc
        rw [hloc'] at hfc
        simp [hst', hl0'] at hfc
  · constructor
    · rw [hdl]; simp
    · intro url hurl
      obtain rfl : url0 = url := Option.some.inj (hres.symm.trans hurl)
      refine ⟨by simp [hdl], ?_, ?_⟩
      · rw [hdl, hfc]
        simp
      · intro r1' loc hr1 hst' hloc' hl0'
        obtain rfl : r1 = r1' := Option.some.inj (hnet.symm.trans hr1)
        obtain rfl : loc0 = loc := Option.some.inj (hloc.symm.trans hloc')
        exact ⟨by simp [hdl], stripAuth_lookup_none cfg⟩
  · constructor
    · rw [hdl]; simp
    · intro url hurl
      obtain rfl : url0 = url := Option.some.inj (hres.symm.trans hurl)
      refine ⟨by simp [hdl], ?_, ?_⟩
      · rw [hdl, hfc]
        simp
      · intro r1' loc hr1 hst' hloc' hl0'
        obtain rfl : r1 = r1' := Option.some.inj (hnet.symm.trans hr1)
        obtain rfl : loc0 = loc := Option.some.inj (hloc.symm.trans hloc')
        exact ⟨by simp [hdl], stripAuth_lookup_none cfg⟩

/-- A network whose only response is a 302 redirect carrying an empty
Location value. -/
def netC4e : Net := fun req =>
  if req.url = "https://h/a" then
    some { status := 302, headers := [("Location", "")], body := [] }
  else none

def cfgC4 : Config := { planeBaseUrl := "", planeApiToken := some "TOKEN" }

/-- Counterexample to C4 as stated: the claim says a follow-up is issued
if and only if the response has a redirect status and carries a Location
header; on a 302 response whose Location header is present but empty the
code issues no follow-up (only one request is made), because it checks the
header value for truthiness. -/
theorem empty_location_redirect_not_followed :
    netC4e { url := "https://h/a", headers := initialHeaders cfgC4 } =
      some { status := 302, headers := [("Location", "")], body := [] } ∧
    headerGet [("Location", "")] "Location" = some "" ∧
    ((302 : Nat) ∈ redirectStatuses) ∧
    (_download_avatar netC4e cfgC4 "https://h/a").2.length = 1 :=
  ⟨by rfl, by rfl, by decide, by rfl⟩

def respC4a : HttpResponse :=
  { status := 302, headers := [("Location", "https://s/b")], body := [] }

def respC4b : HttpResponse :=
  { status := 200, headers := [("Content-Type", "image/png")], body := [7] }

/-- A network with one real redirect hop. -/
def netC4 : Net := fun req =>
  if req.url = "https://h/a" then some respC4a
  else if req.url = "https://s/b" then some respC4b
  else none

/-- Witness for C4: with a bearer token configured, the follow-up request
goes to the Location target without the Authorization header. -/
theorem download_avatar_single_redirect_witness :
    (_download_avatar netC4 cfgC4 "https://h/a").2 =
      [{ url := "https://h/a", headers := [("Authorization", "Bearer TOKEN")] },
       { url := "https://s/b", headers := [] }] ∧
    (stripAuth (initialHeaders cfgC4)).lookup "Authorization" = none := by
  have h := (download_avatar_single_redirect netC4 cfgC4 "https://h/a").2
      "https://h/a" (by rfl)
  have h2 := h.2.2 respC4a "https://s/b" (by rfl) (by decide) (by rfl) (by decide)
  exact ⟨h2.1.trans (by rfl), h2.2⟩

/-! ### Claim C5 -/

/-- C5: when the final response of an avatar download is missing (transport
failure) or has a non-success status, the download returns none rather
than raising; and when the avatar job came back empty the handler still
attempts the relay whenever the composer renders an embed. -/
theorem avatar_failure_degrades_gracefully :
    (∀ (net : Net) (cfg : Config) (path : String),
      finalRespSuccess net cfg path = false →
      (_download_avatar net cfg path).1 = none) ∧
    (∀ (cfg : Config) (avatarNet : Net) (discordResp : DiscordResponse)
        (now : String) (payload : PlaneWebhook) (e : Embed),
      avatarJobOf cfg avatarNet payload = none →
      build_discord_embed payload none now = .ok (some e) →
      (handle_plane_webhook cfg avatarNet discordResp now payload).2.isSome = true) := by
  constructor
  · intro net cfg path hfrs
    rcases download_avatar_run net cfg path with
      ⟨hres, hdl⟩ |
      ⟨url0, hres, ⟨hnet, hdl⟩ | ⟨r1, hnet, ⟨hfc, hdl⟩ |
        ⟨loc0, hfc, hloc, hl0, ⟨hnet2, hdl⟩ | ⟨r2, hnet2, hdl⟩⟩⟩⟩
    · rw [hdl]
    · rw [hdl]
    · have hlast : ((_download_avatar net cfg path).2.getLast?).bind net = some r1 := by
        rw [hdl]
        exact hnet
      unfold finalRespSuccess at hfrs
      rw [hlast] at hfrs
      dsimp only at hfrs
      rw [hdl]
      show finishResponse r1 = none
      unfold finishResponse
      rw [hfrs]
      rfl
    · rw [hdl]
    · have hlast : ((_download_avatar net cfg path).2.getLast?).bind net = some r2 := by
        rw [hdl]
        exact hnet2
      unfold finalRespSuccess at hfrs
      rw [hlast] at hfrs
      dsimp only at hfrs
      rw [hdl]
      show finishResponse r2 = none
      unfold finishResponse
      rw [hfrs]
      rfl
  · intro cfg avatarNet discordResp now payload e hjob hbuild
    have hicon : authorIconOf cfg avatarNet payload = none := by
      unfold authorIconOf
      rw [hjob]
      rfl
    unfold handle_plane_webhook
    rw [hicon, hbuild]
    dsimp only
    rw [hjob]
    dsimp only
    split
    · rfl
    · rfl

def netFail : Net := fun _ => some { status := 404, headers := [], body := [] }

def cfgC5 : Config := { planeBaseUrl := "https://plane.example", planeApiToken := none }

def actorC5 : Actor := { id := "u", avatar_url := some "https://h/av.png" }

def actC5 : Activity :=
  { field := some "name", new_value := .str "B", old_value := .str "A",
    actor := some actorC5 }

def payloadC5 : PlaneWebhook :=
  { event := "project", action := "updated", data := [("name", .str "B")],
    activity := some actC5 }

/-- The embed rendered for payloadC5 without an avatar. -/
def embedC5 : Embed :=
  { title := "📁  B", color := 0xF1C40F,
    fields := [{ name := "Event", value := "Project", inline := true },
               { name := "Action", value := "Updated", inline := true },
               { name := "By", value := "—", inline := true },
               { name := "Name", value := "A ➜ B", inline := false }],
    timestamp := "ts", thumbnail := none,
    author := { name := none, icon_url := none } }

def discord204 : DiscordResponse := { status := 204, bodyText := "", bodyJson := none }

/-- Witness for C5: a 404 avatar response yields no avatar, and the relay
is still attempted. -/
theorem avatar_failure_degrades_gracefully_witness :
    finalRespSuccess netFail cfgC5 "https://h/av.png" = false ∧
    (_download_avatar netFail cfgC5 "https://h/av.png").1 = none ∧
    avatarJobOf cfgC5 netFail payloadC5 = none ∧
    build_discord_embed payloadC5 none "ts" = .ok (some embedC5) ∧
    (handle_plane_webhook cfgC5 netFail discord204 "ts" payloadC5).2.isSome = true :=
  ⟨by rfl,
   avatar_failure_degrades_gracefully.1 netFail cfgC5 "https://h/av.png" (by rfl),
   by rfl, by rfl,
   avatar_failure_degrades_gracefully.2 cfgC5 netFail discord204 "ts" payloadC5
     embedC5 (by rfl) (by rfl)⟩

/-! ### Claim C6 -/

/-- C6: once an embed is rendered, the relay outcome visible to the caller
is success exactly for upstream statuses 200 and 204; any other status
raises HTTPException(500) whose detail carries the upstream status and the
response body (parsed JSON when resp.json() succeeds, else the raw text,
via errInfoStr). -/
theorem relay_status_interpretation (cfg : Config) (avatarNet : Net)
    (discordResp : DiscordResponse) (now : String) (payload : PlaneWebhook)
    (e : Embed)
    (h : build_discord_embed payload (authorIconOf cfg avatarNet payload) now =
      .ok (some e)) :
    (handle_plane_webhook cfg avatarNet discordResp now payload).1 =
      (if discordResp.status = 200 ∨ discordResp.status = 204 then .ok .forwarded
       else .error (.httpException 500
         ("Discord webhook failed (" ++ toString discordResp.status ++ "): " ++
           errInfoStr discordResp))) := by
  unfold handle_plane_webhook
  rw [h]
  dsimp only
  by_cases hc : discordResp.status = 200 ∨ discordResp.status = 204
  · simp only [if_pos hc]
  · simp only [if_neg hc]

def payloadC6 : PlaneWebhook := { event := "cycle", action := "deleted" }

/-- The embed rendered for payloadC6. -/
def embedC6 : Embed :=
  { title := "🗓️  Cycle", color := 0xE74C3C,
    fields := [{ name := "Event", value := "Cycle", inline := true },
               { name := "Action", value := "Deleted", inline := true },
               { name := "By", value := "Unknown", inline := true }],
    timestamp := "ts", thumbnail := none,
    author := { name := some "Unknown", icon_url := none } }

def discord400 : DiscordResponse :=
  { status := 400, bodyText := "bad request", bodyJson := none }

/-- Witness for C6 at statuses 204 (success) and 400 (failure with the
upstream status in the detail). -/
theorem relay_status_interpretation_witness :
    build_discord_embed payloadC6 (authorIconOf cfgC5 netFail payloadC6) "ts" =
      .ok (some embedC6) ∧
    (handle_plane_webhook cfgC5 netFail discord204 "ts" payloadC6).1 =
      .ok .forwarded ∧
    (handle_plane_webhook cfgC5 netFail discord400 "ts" payloadC6).1 =
      .error (.httpException 500 "Discord webhook failed (400): bad request") :=
  ⟨by rfl,
   (relay_status_interpretation cfgC5 netFail discord204 "ts" payloadC6 embedC6
      (by rfl)).trans (by rfl),
   (relay_status_interpretation cfgC5 netFail discord400 "ts" payloadC6 embedC6
      (by rfl)).trans (by rfl)⟩

/-! ### Claim C9 -/

/-- Components of a successful finishResponse. -/
theorem finishResponse_inv {r : HttpResponse} {b : List Nat} {fn mime : String}
    (h : finishResponse r = some (b, fn, mime)) :
    is2xx r.status = true ∧ b = r.body ∧
    fn = "avatar" ++ (guess_extension (contentTypeMain r)).getD ".png" ∧
    mime = (if contentTypeMain r = "" then "image/png" else contentTypeMain r) := by
  unfold finishResponse at h
  split at h
  · next h2 =>
    simp only [Option.some.injEq, Prod.mk.injEq] at h
    obtain ⟨hb, hfn, hm⟩ := h
    exact ⟨h2, hb.symm, hfn.symm, hm.symm⟩
  · cases h

/-- C9 (amended): a successful download derives the filename extension and
the MIME type from the content-type of the final response; the extension
falls back to .png whenever the type is absent or unrecognized, while the
MIME falls back to image/png only when the type (before parameters) is
empty — an unrecognized non-empty type is returned as-is. -/
theorem avatar_filename_mime_derivation (net : Net) (cfg : Config) (path : String)
    (b : List Nat) (fn mime : String)
    (h : (_download_avatar net cfg path).1 = some (b, fn, mime)) :
    (((_download_avatar net cfg path).2.getLast?).bind net).map (fun r =>
        ("avatar" ++ (guess_extension (contentTypeMain r)).getD ".png",
         if contentTypeMain r = "" then "image/png" else contentTypeMain r,
         r.body)) = some (fn, mime, b) := by
  rcases download_avatar_run net cfg path with
    ⟨hres, hdl⟩ |
    ⟨url0, hres, ⟨hnet, hdl⟩ | ⟨r1, hnet, ⟨hfc, hdl⟩ |
      ⟨loc0, hfc, hloc, hl0, ⟨hnet2, hdl⟩ | ⟨r2, hnet2, hdl⟩⟩⟩⟩
  · rw [hdl] at h
    cases h
  · rw [hdl] at h
    cases h
  · rw [hdl] at h
    obtain ⟨h2xx, hb, hfn, hm⟩ := finishResponse_inv h
    have hlast : ((_download_avatar net cfg path).2.getLast?).bind net = some r1 := by
      rw [hdl]
      exact hnet
    rw [hlast, hfn, hm, hb]
    rfl
  · rw [hdl] at h
    cases h
  · rw [hdl] at h
    obtain ⟨h2xx, hb, hfn, hm⟩ := finishResponse_inv h
    have hlast : ((_download_avatar net cfg path).2.getLast?).bind net = some r2 := by
      rw [hdl]
      exact hnet2
    rw [hlast, hfn, hm, hb]
    rfl

def cfgC9 : Config := { planeBaseUrl := "", planeApiToken := none }

/-- A network serving a 200 response with an unrecognized content type. -/
def netC9 : Net := fun req =>
  if req.url = "https://h/a" then
    some { status := 200, headers := [("Content-Type", "application/x-foo")],
           body := [1, 2] }
  else none

/-- Counterexample to C9 as stated: for the present but unrecognized
content type application/x-foo the extension falls back to .png but the
returned MIME type is the raw value, not image/png, so extension and MIME
do not both default to PNG. -/
theorem unrecognized_content_type_mime_not_png :
    (_download_avatar netC9 cfgC9 "https://h/a").1 =
      some ([1, 2], "avatar.png", "application/x-foo") ∧
    ("application/x-foo" ≠ "image/png") ∧
    guess_extension "application/x-foo" = none :=
  ⟨by rfl, by decide, by rfl⟩

/-- A network serving a PNG avatar. -/
def netC9w : Net := fun req =>
  if req.url = "https://h/p" then
    some { status := 200, headers := [("Content-Type", "image/png")], body := [7] }
  else none

/-- Witness for C9 on a recognized image/png response. -/
theorem avatar_filename_mime_derivation_witness :
    (_download_avatar netC9w cfgC9 "https://h/p").1 =
      some ([7], "avatar.png", "image/png") ∧
    (((_download_avatar netC9w cfgC9 "https://h/p").2.getLast?).bind netC9w).map
        (fun r =>
          ("avatar" ++ (guess_extension (contentTypeMain r)).getD ".png",
           if contentTypeMain r = "" then "image/png" else contentTypeMain r,
           r.body)) = some ("avatar.png", "image/png", [7]) :=
  ⟨by rfl,
   avatar_filename_mime_derivation netC9w cfgC9 "https://h/p" [7] "avatar.png"
     "image/png" (by rfl)⟩

end Plane
